import Mathlib

/-!
Verification of the Canvas MCP server (src/server.py) against its
natural-language specification.

The embedding models:
  * JSON values as returned by the Canvas REST API (`Json`);
  * the upstream network as an oracle (`Net`) producing either a network
    failure (timeout or connection failure) or an HTTP response with a
    status code and a body, and the JSON parser as an oracle
    (`String → Option Json`) standing for the `response.json()` call;
  * the `CanvasAPI` client (`CanvasAPI.init`, `CanvasAPI.get`);
  * every tool handler, as a pure function of an endpoint-level fetch
    oracle (`Fetch`), the wall clock, and its arguments.

Python `dict.get` is modelled by `Json.get`/`Json.getD`; handlers are
analysed under the upstream contract that the records they project are
JSON objects (stated as hypotheses of the theorems where a claim
quantifies over upstream data).  The wall clock is modelled at
microsecond resolution as `Nat` microseconds since 0001-01-01T00:00:00,
matching the proleptic-Gregorian calendar used by the Python `datetime`
library; `isoformat` reproduces `datetime.isoformat` on that range.
-/

namespace CanvasMCP

/-- JSON values (the parsed bodies the Canvas REST API returns).
Numbers are modelled as integers: no handler in the source performs
arithmetic on or distinguishes fractional JSON numbers. -/
inductive Json where
  | null : Json
  | bool (b : Bool) : Json
  | num (n : Int) : Json
  | str (s : String) : Json
  | arr (items : List Json) : Json
  | obj (fields : List (String × Json)) : Json

/-- Key lookup in a JSON object; `none` on a missing key or a non-object. -/
def Json.lookup : Json → String → Option Json
  | .obj fields, key => List.lookup key fields
  | _, _ => none

/-- Python `d.get(key, default)` on a JSON object. -/
def Json.getD (j : Json) (key : String) (d : Json) : Json :=
  (j.lookup key).getD d

/-- Python `d.get(key)` (missing keys give `None`, i.e. `Json.null`). -/
def Json.get (j : Json) (key : String) : Json :=
  j.getD key Json.null

/-- Replace the value at a key, keeping its position, or append the pair
(the behaviour of Python dict assignment). -/
def setKey (key : String) (v : Json) : List (String × Json) → List (String × Json)
  | [] => [(key, v)]
  | (k, w) :: rest => if k = key then (k, v) :: rest else (k, w) :: setKey key v rest

/-- Python `d[key] = v` on a JSON object (no-op on non-objects; the
handlers only assign into upstream records, which are objects). -/
def Json.set : Json → String → Json → Json
  | .obj fields, key, v => .obj (setKey key v fields)
  | j, _, _ => j

/-- The element list of a JSON array (the handlers iterate only over
array-shaped responses; see the object hypotheses of the theorems). -/
def Json.asArr : Json → List Json
  | .arr items => items
  | _ => []

def Json.isObj : Json → Bool
  | .obj _ => true
  | _ => false

/-- Python `j == s` for a string literal `s` (a non-string JSON value is
never equal to a string). -/
def Json.isStr (j : Json) (s : String) : Bool :=
  match j with
  | .str t => t = s
  | _ => false

/-- Python `str()` as used inside f-string endpoint interpolation.
Container values never reach the interpolation sites in the claims, so
their Python repr is not reproduced. -/
def Json.pyStr : Json → String
  | .null => "None"
  | .bool true => "True"
  | .bool false => "False"
  | .num n => toString n
  | .str s => s
  | .arr _ => ""
  | .obj _ => ""

/-- The error kinds named by the specification for the Canvas client:
a non-2xx HTTP response (with status code and body), a network timeout
or connection failure, and a malformed JSON body in a 2xx response. -/
inductive UpstreamError where
  | httpError (status : Nat) (body : String)
  | unavailable
  | decodeError
  deriving DecidableEq

/-- A query-parameter value: a string, an integer, or a list of strings
(repeated-key parameters such as the include[] parameter). -/
inductive PVal where
  | s (v : String)
  | n (v : Int)
  | l (vs : List String)
  deriving DecidableEq

abbrev Params := List (String × PVal)

/-- The endpoint-level oracle a handler sees: the outcome of
`canvas.get endpoint params` for each endpoint and parameter mapping. -/
abbrev Fetch := String → Params → Except UpstreamError Json

/-! ## The clock: a model of the datetime library at microsecond resolution -/

def usPerDay : Nat := 86400000000

structure CivilDate where
  year : Nat
  month : Nat
  day : Nat

/-- Proleptic-Gregorian civil date from a day number (day 0 is
0001-01-01, as in `datetime.toordinal` minus one). -/
def civilFromDays (days : Nat) : CivilDate :=
  let z := days + 306
  let era := z / 146097
  let doe := z % 146097
  let yoe := (doe - doe / 1460 + doe / 36524 - doe / 146097) / 365
  let doy := doe - (365 * yoe + yoe / 4 - yoe / 100)
  let mp := (5 * doy + 2) / 153
  let d := doy - (153 * mp + 2) / 5 + 1
  let m := if mp < 10 then mp + 3 else mp - 9
  ⟨yoe + era * 400 + (if m ≤ 2 then 1 else 0), m, d⟩

def pad2 (n : Nat) : List Char :=
  [Nat.digitChar (n / 10 % 10), Nat.digitChar (n % 10)]

def pad4 (n : Nat) : List Char :=
  [Nat.digitChar (n / 1000 % 10), Nat.digitChar (n / 100 % 10),
   Nat.digitChar (n / 10 % 10), Nat.digitChar (n % 10)]

def pad6 (n : Nat) : List Char :=
  [Nat.digitChar (n / 100000 % 10), Nat.digitChar (n / 10000 % 10),
   Nat.digitChar (n / 1000 % 10), Nat.digitChar (n / 100 % 10),
   Nat.digitChar (n / 10 % 10), Nat.digitChar (n % 10)]

/-- `datetime.isoformat()`: YYYY-MM-DDTHH:MM:SS, with a .ffffff suffix
exactly when the microsecond field is nonzero. -/
def isoformat (t : Nat) : String :=
  let date := civilFromDays (t / usPerDay)
  let rem := t % usPerDay
  let secs := rem / 1000000
  let micro := rem % 1000000
  String.mk ((pad4 date.year ++ '-' :: pad2 date.month ++ '-' :: pad2 date.day ++
    'T' :: pad2 (secs / 3600) ++ ':' :: pad2 (secs % 3600 / 60) ++ ':' :: pad2 (secs % 60)) ++
    (if micro = 0 then [] else '.' :: pad6 micro))

/-- `t + timedelta(days = d)` on the microsecond clock. -/
def addDays (t : Nat) (d : Int) : Nat :=
  ((t : Int) + d * (usPerDay : Int)).toNat

/-- `t - timedelta(days = d)` on the microsecond clock. -/
def subDays (t : Nat) (d : Int) : Nat :=
  ((t : Int) - d * (usPerDay : Int)).toNat

/-- The numeric value of a two-digit-character pair. -/
def charsVal (a b : Char) : Nat :=
  10 * (a.toNat - 48) + (b.toNat - 48)

/-- Well-formed ISO-8601 local timestamp: YYYY-MM-DDTHH:MM:SS with an
optional six-digit fractional-second suffix, with the month, day, hour,
minute and second fields in range. -/
def isISO8601 (s : String) : Bool :=
  match s.data with
  | y1 :: y2 :: y3 :: y4 :: sep1 :: m1 :: m2 :: sep2 :: d1 :: d2 :: sept ::
      h1 :: h2 :: sep3 :: n1 :: n2 :: sep4 :: s1 :: s2 :: rest =>
    y1.isDigit && y2.isDigit && y3.isDigit && y4.isDigit &&
    sep1 == '-' && sep2 == '-' && sept == 'T' && sep3 == ':' && sep4 == ':' &&
    m1.isDigit && m2.isDigit && d1.isDigit && d2.isDigit &&
    h1.isDigit && h2.isDigit && n1.isDigit && n2.isDigit && s1.isDigit && s2.isDigit &&
    decide (1 ≤ charsVal m1 m2) && decide (charsVal m1 m2 ≤ 12) &&
    decide (1 ≤ charsVal d1 d2) && decide (charsVal d1 d2 ≤ 31) &&
    decide (charsVal h1 h2 ≤ 23) && decide (charsVal n1 n2 ≤ 59) && decide (charsVal s1 s2 ≤ 59) &&
    (match rest with
     | [] => true
     | dot :: fs => dot == '.' && fs.length == 6 && fs.all (fun c => c.isDigit))
  | _ => false

/-! ## The Canvas client -/

/-- Python `s.rstrip('/')`: remove every trailing slash. -/
def rstripSlash (s : String) : String :=
  String.mk ((s.data.reverse.dropWhile (fun c => c == '/')).reverse)

structure CanvasAPI where
  base_url : String
  api_token : String
  headers : List (String × String)

/-- `CanvasAPI.__init__`. -/
def CanvasAPI.init (base_url api_token : String) : CanvasAPI :=
  { base_url := rstripSlash base_url
    api_token := api_token
    headers := [("Authorization", "Bearer " ++ api_token),
                ("Content-Type", "application/json")] }

/-- The HTTP layer as seen by one GET: either the request never yields a
response (timeout after 30 seconds, or connection failure), or a
response arrives with a status code and a body. -/
inductive HttpOutcome where
  | netFail
  | resp (status : Nat) (body : String)

abbrev Net := String → List (String × String) → Params → HttpOutcome

def CanvasAPI.url (api : CanvasAPI) (endpoint : String) : String :=
  api.base_url ++ "/api/v1/" ++ endpoint

/-- `CanvasAPI.get`: issue the GET; `raise_for_status` fails on any
status outside 200-299; otherwise `response.json()` parses the body,
failing on malformed JSON. -/
def CanvasAPI.get (net : Net) (parse : String → Option Json) (api : CanvasAPI)
    (endpoint : String) (params : Params) : Except UpstreamError Json :=
  match net (api.url endpoint) api.headers params with
  | .netFail => .error .unavailable
  | .resp status body =>
    if 200 ≤ status ∧ status < 300 then
      match parse body with
      | some j => .ok j
      | none => .error .decodeError
    else .error (.httpError status body)

/-- The endpoint-level fetch each handler performs, obtained by binding
a client to the canvas_url and api_token arguments. -/
def mkFetch (net : Net) (parse : String → Option Json) (canvas_url api_token : String) : Fetch :=
  fun endpoint params => (CanvasAPI.init canvas_url api_token).get net parse endpoint params

/-- Python truthiness of an Optional[int] argument: None and 0 are
falsy, every other integer is truthy. -/
def pyTruthy : Option Int → Bool
  | none => false
  | some n => n != 0

/-! ## Loop shapes shared by the handlers -/

/-- `out = []; for x in items: out.append(f(x))`. -/
def pyListLoop (f : Json → Json) (items : List Json) : List Json :=
  items.foldl (fun acc x => acc ++ [f x]) []

/-- `out = []; for x in items:  if p(x): out.append(f(x))`. -/
def pyFilterLoop (p : Json → Bool) (f : Json → Json) (items : List Json) : List Json :=
  items.foldl (fun acc x => if p x then acc ++ [f x] else acc) []

/-! ## Tool handlers -/

def upcomingAssignmentsParams (now : Nat) (days_ahead : Int) : Params :=
  [("start_date", .s (isoformat now)),
   ("end_date", .s (isoformat (addDays now days_ahead))),
   ("filter", .s "")]

def upcomingProj (item : Json) : Json :=
  let plannable := item.getD "plannable" (Json.obj [])
  Json.obj [("title", plannable.get "title"), ("due_at", plannable.get "due_at"),
    ("points_possible", plannable.get "points_possible"),
    ("course_id", item.get "course_id"), ("assignment_id", plannable.get "id"),
    ("html_url", item.get "html_url")]

def get_upcoming_assignments (fetch : Fetch) (now : Nat) (days_ahead : Int := 7) :
    Except UpstreamError Json := do
  let items ← fetch "planner/items" (upcomingAssignmentsParams now days_ahead)
  return Json.arr (pyFilterLoop (fun item => (item.get "plannable_type").isStr "assignment")
    upcomingProj items.asArr)

def todoProj (todo : Json) : Json :=
  let assignment := todo.getD "assignment" (Json.obj [])
  Json.obj [("assignment_name", assignment.get "name"), ("due_at", assignment.get "due_at"),
    ("course_id", assignment.get "course_id"), ("assignment_id", assignment.get "id"),
    ("type", todo.get "type"),
    ("needs_grading_count", todo.getD "needs_grading_count" (Json.num 0)),
    ("html_url", assignment.get "html_url")]

def get_todos (fetch : Fetch) : Except UpstreamError Json := do
  let todos ← fetch "users/self/todo" []
  return Json.arr (pyListLoop todoProj todos.asArr)

def dashboardProj (card : Json) : Json :=
  Json.obj [("id", card.get "id"), ("course_code", card.get "course_code"),
    ("short_name", card.get "shortName"), ("name", card.get "originalName"),
    ("href", card.get "href")]

def get_dashboard_courses (fetch : Fetch) : Except UpstreamError Json := do
  let cards ← fetch "dashboard/dashboard_cards" []
  return Json.arr (pyListLoop dashboardProj cards.asArr)

def courseAssignmentsParams (bucket : String) : Params :=
  [("bucket", .s bucket), ("order_by", .s "due_at")]

def courseAssignmentProj (a : Json) : Json :=
  Json.obj [("id", a.get "id"), ("name", a.get "name"), ("description", a.get "description"),
    ("due_at", a.get "due_at"), ("points_possible", a.get "points_possible"),
    ("submission_types", a.getD "submission_types" (Json.arr [])),
    ("html_url", a.get "html_url"),
    ("has_submitted_submissions", a.getD "has_submitted_submissions" (Json.bool false))]

def get_course_assignments (fetch : Fetch) (course_id : Int) (bucket : String := "upcoming") :
    Except UpstreamError Json := do
  let assignments ← fetch ("courses/" ++ toString course_id ++ "/assignments")
    (courseAssignmentsParams bucket)
  return Json.arr (pyListLoop courseAssignmentProj assignments.asArr)

def calendarEventsParams (now : Nat) (days_ahead : Int) : Params :=
  [("start_date", .s (isoformat now)),
   ("end_date", .s (isoformat (addDays now days_ahead))),
   ("per_page", .n 100)]

def calendarEventProj (e : Json) : Json :=
  Json.obj [("title", e.get "title"), ("start_at", e.get "start_at"),
    ("end_at", e.get "end_at"), ("type", e.get "type"),
    ("description", e.get "description"), ("location_name", e.get "location_name"),
    ("html_url", e.get "html_url"), ("context_code", e.get "context_code")]

def get_calendar_events (fetch : Fetch) (now : Nat) (days_ahead : Int := 14) :
    Except UpstreamError Json := do
  let events ← fetch "calendar_events" (calendarEventsParams now days_ahead)
  return Json.arr (pyListLoop calendarEventProj events.asArr)

def courseAnnouncementsParams (now : Nat) (days_back : Int) : Params :=
  [("start_date", .s (isoformat (subDays now days_back))),
   ("per_page", .n 50)]

def announcementProj (a : Json) : Json :=
  Json.obj [("title", a.get "title"), ("message", a.get "message"),
    ("posted_at", a.get "posted_at"),
    ("author", (a.getD "author" (Json.obj [])).get "display_name"),
    ("context_code", a.get "context_code"), ("html_url", a.get "html_url")]

def get_course_announcements (fetch : Fetch) (now : Nat) (days_back : Int := 7) :
    Except UpstreamError Json := do
  let announcements ← fetch "announcements" (courseAnnouncementsParams now days_back)
  return Json.arr (pyListLoop announcementProj announcements.asArr)

def gradesParams : Params :=
  [("enrollment_state", .s "active"),
   ("include[]", .l ["total_scores", "current_grading_period_scores"])]

def gradeProj (e : Json) : Json :=
  Json.obj [("course_id", e.get "course_id"),
    ("current_score", (e.getD "grades" (Json.obj [])).get "current_score"),
    ("final_score", (e.getD "grades" (Json.obj [])).get "final_score"),
    ("current_grade", (e.getD "grades" (Json.obj [])).get "current_grade"),
    ("final_grade", (e.getD "grades" (Json.obj [])).get "final_grade"),
    ("unposted_current_score", (e.getD "grades" (Json.obj [])).get "unposted_current_score"),
    ("unposted_current_grade", (e.getD "grades" (Json.obj [])).get "unposted_current_grade")]

def get_grades (fetch : Fetch) (course_id : Option Int := none) : Except UpstreamError Json := do
  let enrollments ←
    if pyTruthy course_id then
      fetch ("courses/" ++ toString (course_id.getD 0) ++ "/enrollments") gradesParams
    else
      fetch "users/self/enrollments" gradesParams
  return Json.arr (pyFilterLoop (fun e => (e.get "type").isStr "StudentEnrollment")
    gradeProj enrollments.asArr)

def missingAssignmentsParams : Params :=
  [("bucket", .s "missing"), ("per_page", .n 100)]

def missingProj (course : Json) (course_id : Json) (a : Json) : Json :=
  Json.obj [("course_name", course.get "name"), ("course_id", course_id),
    ("assignment_id", a.get "id"), ("name", a.get "name"), ("due_at", a.get "due_at"),
    ("points_possible", a.get "points_possible"), ("html_url", a.get "html_url")]

/-- The contribution of one course to the missing-assignments result:
nothing when its sub-fetch fails (for any error kind), its projected
assignments otherwise. -/
def missingCourseItems (fetch : Fetch) (course : Json) : List Json :=
  match fetch ("courses/" ++ (course.get "id").pyStr ++ "/assignments")
      missingAssignmentsParams with
  | .error _ => []
  | .ok assignments => assignments.asArr.map (missingProj course (course.get "id"))

def get_missing_assignments (fetch : Fetch) : Except UpstreamError Json := do
  let courses ← fetch "courses" [("enrollment_state", .s "active")]
  return Json.arr (courses.asArr.foldl (fun acc course =>
    match fetch ("courses/" ++ (course.get "id").pyStr ++ "/assignments")
        missingAssignmentsParams with
    | .error _ => acc
    | .ok assignments =>
      assignments.asArr.foldl
        (fun acc2 a => acc2 ++ [missingProj course (course.get "id") a]) acc) [])

def unreadMessagesParams : Params :=
  [("scope", .s "unread"), ("per_page", .n 50)]

def messageProj (c : Json) : Json :=
  Json.obj [("id", c.get "id"), ("subject", c.get "subject"),
    ("last_message", c.get "last_message"), ("last_message_at", c.get "last_message_at"),
    ("message_count", c.get "message_count"),
    ("participants", Json.arr ((c.getD "participants" (Json.arr [])).asArr.map
      (fun p => p.get "name"))),
    ("context_name", c.get "context_name")]

def get_unread_messages (fetch : Fetch) : Except UpstreamError Json := do
  let conversations ← fetch "conversations" unreadMessagesParams
  return Json.arr (pyListLoop messageProj conversations.asArr)

def assignmentDetailsParams : Params :=
  [("include[]", .l ["rubric", "rubric_assessment"])]

def get_assignment_details (fetch : Fetch) (course_id assignment_id : Int) :
    Except UpstreamError Json := do
  let a ← fetch ("courses/" ++ toString course_id ++ "/assignments/" ++ toString assignment_id)
    assignmentDetailsParams
  return Json.obj [("id", a.get "id"), ("name", a.get "name"),
    ("description", a.get "description"), ("due_at", a.get "due_at"),
    ("points_possible", a.get "points_possible"),
    ("submission_types", a.getD "submission_types" (Json.arr [])),
    ("allowed_attempts", a.get "allowed_attempts"), ("grading_type", a.get "grading_type"),
    ("html_url", a.get "html_url"), ("rubric", a.getD "rubric" (Json.arr [])),
    ("has_submitted_submissions", a.getD "has_submitted_submissions" (Json.bool false))]

def submissionStatusParams : Params :=
  [("include[]", .l ["submission_history", "rubric_assessment"])]

def get_submission_status (fetch : Fetch) (course_id assignment_id : Int) :
    Except UpstreamError Json := do
  let s ← fetch ("courses/" ++ toString course_id ++ "/assignments/" ++
      toString assignment_id ++ "/submissions/self") submissionStatusParams
  return Json.obj [("id", s.get "id"), ("assignment_id", s.get "assignment_id"),
    ("submitted_at", s.get "submitted_at"), ("workflow_state", s.get "workflow_state"),
    ("grade", s.get "grade"), ("score", s.get "score"), ("attempt", s.get "attempt"),
    ("late", s.get "late"), ("missing", s.get "missing"), ("excused", s.get "excused"),
    ("preview_url", s.get "preview_url")]

def courseModulesParams : Params := [("include[]", .l ["items"])]

def moduleItemProj (item : Json) : Json :=
  Json.obj [("id", item.get "id"), ("title", item.get "title"), ("type", item.get "type"),
    ("html_url", item.get "html_url"), ("position", item.get "position")]

def moduleProj (m : Json) : Json :=
  Json.obj [("id", m.get "id"), ("name", m.get "name"), ("position", m.get "position"),
    ("unlock_at", m.get "unlock_at"), ("state", m.get "state"),
    ("items", Json.arr (pyListLoop moduleItemProj (m.getD "items" (Json.arr [])).asArr))]

def get_course_modules (fetch : Fetch) (course_id : Int) : Except UpstreamError Json := do
  let modules ← fetch ("courses/" ++ toString course_id ++ "/modules") courseModulesParams
  return Json.arr (pyListLoop moduleProj modules.asArr)

def discussionProj (d : Json) : Json :=
  Json.obj [("id", d.get "id"), ("title", d.get "title"), ("message", d.get "message"),
    ("posted_at", d.get "posted_at"), ("discussion_type", d.get "discussion_type"),
    ("unread_count", d.get "unread_count"), ("html_url", d.get "html_url"),
    ("course_name", d.get "course_name")]

/-- The contribution of one course to the discussions fan-out: nothing
when its sub-fetch fails, otherwise its first three discussions, each
tagged with the name of the course. -/
def discussionsCourseItems (fetch : Fetch) (course : Json) : List Json :=
  match fetch ("courses/" ++ (course.get "id").pyStr ++ "/discussion_topics") [] with
  | .error _ => []
  | .ok ds => (ds.asArr.take 3).map (fun d => d.set "course_name" (course.get "name"))

/-- The fan-out branch of the discussions handler: iterate over the
first five active courses, keep the first three discussions of each,
tagging each with the course name; a failing sub-fetch contributes
nothing. -/
def discussionsFanout (fetch : Fetch) : Except UpstreamError Json := do
  let courses ← fetch "courses" [("enrollment_state", .s "active")]
  return Json.arr ((courses.asArr.take 5).foldl (fun acc course =>
    match fetch ("courses/" ++ (course.get "id").pyStr ++ "/discussion_topics") [] with
    | .error _ => acc
    | .ok ds => (ds.asArr.take 3).foldl
        (fun acc2 d => acc2 ++ [d.set "course_name" (course.get "name")]) acc) [])

def get_discussions (fetch : Fetch) (course_id : Option Int := none) :
    Except UpstreamError Json := do
  let discussions ←
    if pyTruthy course_id then
      fetch ("courses/" ++ toString (course_id.getD 0) ++ "/discussion_topics") []
    else
      discussionsFanout fetch
  return Json.arr (pyListLoop discussionProj discussions.asArr)

def quizProj (q : Json) : Json :=
  Json.obj [("id", q.get "id"), ("title", q.get "title"),
    ("description", q.get "description"), ("due_at", q.get "due_at"),
    ("lock_at", q.get "lock_at"), ("unlock_at", q.get "unlock_at"),
    ("points_possible", q.get "points_possible"),
    ("question_count", q.get "question_count"), ("time_limit", q.get "time_limit"),
    ("html_url", q.get "html_url"), ("course_name", q.get "course_name"),
    ("course_id", q.get "course_id")]

/-- The contribution of one course to the quizzes fan-out: nothing when
its sub-fetch fails, otherwise its quizzes tagged with the name and id
of the course. -/
def quizzesCourseItems (fetch : Fetch) (course : Json) : List Json :=
  match fetch ("courses/" ++ (course.get "id").pyStr ++ "/quizzes") [] with
  | .error _ => []
  | .ok qs => qs.asArr.map
      (fun q => (q.set "course_name" (course.get "name")).set "course_id" (course.get "id"))

/-- The fan-out branch of the quizzes handler: iterate over every
active course, tagging each quiz with the course name and id; a failing
sub-fetch contributes nothing. -/
def quizzesFanout (fetch : Fetch) : Except UpstreamError Json := do
  let courses ← fetch "courses" [("enrollment_state", .s "active")]
  return Json.arr (courses.asArr.foldl (fun acc course =>
    match fetch ("courses/" ++ (course.get "id").pyStr ++ "/quizzes") [] with
    | .error _ => acc
    | .ok qs => qs.asArr.foldl
        (fun acc2 q => acc2 ++
          [(q.set "course_name" (course.get "name")).set "course_id" (course.get "id")]) acc) [])

def get_quizzes (fetch : Fetch) (course_id : Option Int := none) :
    Except UpstreamError Json := do
  let quizzes ←
    if pyTruthy course_id then
      fetch ("courses/" ++ toString (course_id.getD 0) ++ "/quizzes") []
    else
      quizzesFanout fetch
  return Json.arr (pyListLoop quizProj quizzes.asArr)

def notificationsParams : Params := [("per_page", .n 50)]

def notificationProj (item : Json) : Json :=
  Json.obj [("id", item.get "id"), ("title", item.get "title"),
    ("message", item.get "message"), ("type", item.get "type"),
    ("created_at", item.get "created_at"), ("html_url", item.get "html_url"),
    ("context_type", item.get "context_type")]

def get_notifications (fetch : Fetch) : Except UpstreamError Json :=
  match fetch "users/self/activity_stream" notificationsParams with
  | .error _ => .ok (Json.arr [])
  | .ok activity_stream => .ok (Json.arr (pyListLoop notificationProj activity_stream.asArr))

def courseSyllabusParams : Params := [("include[]", .l ["syllabus_body"])]

def get_course_syllabus (fetch : Fetch) (course_id : Int) : Except UpstreamError Json := do
  let course ← fetch ("courses/" ++ toString course_id) courseSyllabusParams
  return Json.obj [("course_id", course.get "id"), ("course_name", course.get "name"),
    ("course_code", course.get "course_code"), ("syllabus_body", course.get "syllabus_body"),
    ("start_at", course.get "start_at"), ("end_at", course.get "end_at"),
    ("time_zone", course.get "time_zone")]

/-! ## The tool surface as one dispatch table -/

/-- One tool invocation: the tool name together with its tool-specific
arguments. -/
inductive ToolCall where
  | upcomingAssignments (days_ahead : Int)
  | todos
  | dashboardCourses
  | courseAssignments (course_id : Int) (bucket : String)
  | calendarEvents (days_ahead : Int)
  | courseAnnouncements (days_back : Int)
  | grades (course_id : Option Int)
  | missingAssignments
  | unreadMessages
  | assignmentDetails (course_id assignment_id : Int)
  | submissionStatus (course_id assignment_id : Int)
  | courseModules (course_id : Int)
  | discussions (course_id : Option Int)
  | quizzes (course_id : Option Int)
  | notifications
  | courseSyllabus (course_id : Int)

/-- Run one tool invocation.  Every handler is a function of exactly the
tool arguments, the credentials, the two upstream oracles and the clock:
no other state exists. -/
def runTool (t : ToolCall) (canvas_url api_token : String) (net : Net)
    (parse : String → Option Json) (now : Nat) : Except UpstreamError Json :=
  let fetch := mkFetch net parse canvas_url api_token
  match t with
  | .upcomingAssignments d => get_upcoming_assignments fetch now d
  | .todos => get_todos fetch
  | .dashboardCourses => get_dashboard_courses fetch
  | .courseAssignments cid b => get_course_assignments fetch cid b
  | .calendarEvents d => get_calendar_events fetch now d
  | .courseAnnouncements d => get_course_announcements fetch now d
  | .grades cid => get_grades fetch cid
  | .missingAssignments => get_missing_assignments fetch
  | .unreadMessages => get_unread_messages fetch
  | .assignmentDetails c a => get_assignment_details fetch c a
  | .submissionStatus c a => get_submission_status fetch c a
  | .courseModules c => get_course_modules fetch c
  | .discussions cid => get_discussions fetch cid
  | .quizzes cid => get_quizzes fetch cid
  | .notifications => get_notifications fetch
  | .courseSyllabus c => get_course_syllabus fetch c

/-! ## Concrete fixtures used to instantiate the theorems -/

def fixCourse (i : Int) (name : String) : Json :=
  Json.obj [("id", Json.num i), ("name", Json.str name)]

def c1Parse : String → Option Json :=
  fun s => if s = "[]" then some (Json.arr []) else none

def c1NetFail : Net := fun _ _ _ => .netFail

def c1Net500 : Net := fun _ _ _ => .resp 500 "server error"

def c1NetBad : Net := fun _ _ _ => .resp 200 "not json"

def c1NetOk : Net := fun _ _ _ => .resp 200 "[]"

def c2A1 : Json := Json.obj [("id", Json.num 11), ("name", Json.str "HW1")]

def c2A3 : Json := Json.obj [("id", Json.num 31), ("name", Json.str "HW3")]

def c2Fetch : Fetch := fun ep _ =>
  if ep = "courses" then
    .ok (Json.arr [fixCourse 1 "Math", fixCourse 2 "Bio", fixCourse 3 "Chem"])
  else if ep = "courses/1/assignments" then .ok (Json.arr [c2A1])
  else if ep = "courses/2/assignments" then .error (.httpError 500 "err")
  else if ep = "courses/3/assignments" then .ok (Json.arr [c2A3])
  else .error .unavailable

def c3Item : Json := Json.obj [("id", Json.num 7), ("title", Json.str "Notice")]

def c3FetchErr : Fetch := fun _ _ => .error .unavailable

def c3FetchOk : Fetch := fun ep _ =>
  if ep = "users/self/activity_stream" then .ok (Json.arr [c3Item])
  else .error .unavailable

def c4Disc (i : Int) : Json :=
  Json.obj [("id", Json.num i), ("title", Json.str ("D" ++ toString i))]

def c4Fetch : Fetch := fun ep _ =>
  if ep = "courses" then
    .ok (Json.arr [fixCourse 1 "Alg", fixCourse 2 "Bio", fixCourse 3 "Chem",
      fixCourse 4 "Dyn", fixCourse 5 "Eco", fixCourse 6 "Fre"])
  else if ep = "courses/1/discussion_topics" then
    .ok (Json.arr [c4Disc 1, c4Disc 2, c4Disc 3, c4Disc 4])
  else if ep = "courses/2/discussion_topics" then .ok (Json.arr [])
  else if ep = "courses/3/discussion_topics" then .ok (Json.arr [])
  else if ep = "courses/4/discussion_topics" then .ok (Json.arr [])
  else if ep = "courses/5/discussion_topics" then .ok (Json.arr [])
  else if ep = "courses/6/discussion_topics" then .ok (Json.arr [c4Disc 99])
  else .error .unavailable

def c5Item1 : Json :=
  Json.obj [("plannable_type", Json.str "assignment"),
    ("plannable", Json.obj [("title", Json.str "Essay"), ("id", Json.num 5)]),
    ("course_id", Json.num 1)]

def c5Item2 : Json :=
  Json.obj [("plannable_type", Json.str "quiz"),
    ("plannable", Json.obj [("title", Json.str "Quiz1")])]

def c5Fetch : Fetch := fun ep _ =>
  if ep = "planner/items" then .ok (Json.arr [c5Item1, c5Item2])
  else .error .unavailable

def c6Stu : Json :=
  Json.obj [("type", Json.str "StudentEnrollment"), ("course_id", Json.num 9),
    ("grades", Json.obj [("current_score", Json.num 95), ("final_score", Json.num 93),
      ("current_grade", Json.str "A"), ("final_grade", Json.str "A"),
      ("unposted_current_score", Json.num 95), ("unposted_current_grade", Json.str "A")])]

def c6Teach : Json :=
  Json.obj [("type", Json.str "TeacherEnrollment"), ("course_id", Json.num 9)]

def c6Fetch : Fetch := fun ep _ =>
  if ep = "courses/9/enrollments" then .ok (Json.arr [c6Teach, c6Stu])
  else if ep = "users/self/enrollments" then .ok (Json.arr [c6Stu])
  else .error .unavailable

/-- A fixture on which the per-course enrollments endpoint is
unavailable while users/self/enrollments succeeds: it separates the two
endpoint choices observably. -/
def c6CEFetch : Fetch := fun ep _ =>
  if ep = "users/self/enrollments" then .ok (Json.arr [c6Stu])
  else .error .unavailable

def c8A : Json := Json.obj [("id", Json.num 21), ("name", Json.str "HW")]

def c8D : Json := Json.obj [("id", Json.num 22), ("title", Json.str "Disc")]

def c8Q : Json := Json.obj [("id", Json.num 23), ("title", Json.str "Quiz")]

def c8Fetch : Fetch := fun ep _ =>
  if ep = "courses" then .ok (Json.arr [fixCourse 1 "Alg", fixCourse 2 "Bio"])
  else if ep = "courses/1/assignments" then .error .decodeError
  else if ep = "courses/1/discussion_topics" then .error .decodeError
  else if ep = "courses/1/quizzes" then .error .decodeError
  else if ep = "courses/2/assignments" then .ok (Json.arr [c8A])
  else if ep = "courses/2/discussion_topics" then .ok (Json.arr [c8D])
  else if ep = "courses/2/quizzes" then .ok (Json.arr [c8Q])
  else .error .decodeError

def c9Net : Net := fun _ _ _ => .resp 200 "[]"

def c9Parse : String → Option Json :=
  fun s => if s = "[]" then some (Json.arr []) else none

/-! ## Helper lemmas -/

theorem digitChar_isDigit_of_lt (k : Nat) (hk : k < 10) : (Nat.digitChar k).isDigit = true := by
  interval_cases k <;> decide

theorem digitChar_toNat_of_lt (k : Nat) (hk : k < 10) : (Nat.digitChar k).toNat = 48 + k := by
  interval_cases k <;> decide

theorem digitChar_mod_isDigit (n : Nat) : (Nat.digitChar (n % 10)).isDigit = true :=
  digitChar_isDigit_of_lt _ (Nat.mod_lt _ (by norm_num))

theorem digitChar_mod_toNat (n : Nat) : (Nat.digitChar (n % 10)).toNat = 48 + n % 10 :=
  digitChar_toNat_of_lt _ (Nat.mod_lt _ (by norm_num))

theorem charsVal_pad2 (n : Nat) (h : n ≤ 99) :
    charsVal (Nat.digitChar (n / 10 % 10)) (Nat.digitChar (n % 10)) = n := by
  rw [charsVal, digitChar_mod_toNat, digitChar_mod_toNat]
  omega

/-- The civil conversion always yields a month in 1..12 and a day in 1..31. -/
theorem civil_month_day_bounds (days : Nat) :
    1 ≤ (civilFromDays days).month ∧ (civilFromDays days).month ≤ 12 ∧
    1 ≤ (civilFromDays days).day ∧ (civilFromDays days).day ≤ 31 := by
  unfold civilFromDays
  dsimp only
  split <;> omega

/-- Every timestamp the clock model formats is a well-formed ISO-8601
timestamp. -/
theorem isoformat_wf (t : Nat) : isISO8601 (isoformat t) = true := by
  have hb := civil_month_day_bounds (t / usPerDay)
  unfold usPerDay at hb
  have hrem : t % 86400000000 < 86400000000 := Nat.mod_lt _ (by norm_num)
  unfold isoformat isISO8601 usPerDay
  dsimp only
  by_cases hmi : t % 86400000000 % 1000000 = 0
  · rw [if_pos hmi]
    simp only [pad4, pad2, List.cons_append, List.nil_append, List.append_nil]
    simp only [Bool.and_eq_true, decide_eq_true_eq, beq_self_eq_true, and_true, true_and]
    repeat' apply And.intro
    all_goals
      first
      | exact digitChar_mod_isDigit _
      | rfl
      | (rw [charsVal_pad2] <;> omega)
  · rw [if_neg hmi]
    simp only [pad4, pad2, pad6, List.cons_append, List.nil_append, List.append_nil]
    simp only [Bool.and_eq_true, decide_eq_true_eq, beq_self_eq_true, and_true, true_and,
      List.all_cons, List.all_nil, List.length_cons, List.length_nil]
    repeat' apply And.intro
    all_goals
      first
      | exact digitChar_mod_isDigit _
      | rfl
      | (rw [charsVal_pad2] <;> omega)

theorem pyAppend_foldl {α β : Type} (f : α → β) (l : List α) (acc : List β) :
    l.foldl (fun a x => a ++ [f x]) acc = acc ++ l.map f := by
  induction l generalizing acc with
  | nil => simp
  | cons x xs ih => simp [ih]

theorem pyListLoop_eq_map (f : Json → Json) (l : List Json) : pyListLoop f l = l.map f := by
  simpa using pyAppend_foldl f l []

theorem pyFilter_foldl (p : Json → Bool) (f : Json → Json) (l : List Json) (acc : List Json) :
    l.foldl (fun a x => if p x then a ++ [f x] else a) acc = acc ++ (l.filter p).map f := by
  induction l generalizing acc with
  | nil => simp
  | cons x xs ih =>
    by_cases hp : p x <;> simp [hp, ih]

theorem pyFilterLoop_eq (p : Json → Bool) (f : Json → Json) (l : List Json) :
    pyFilterLoop p f l = (l.filter p).map f := by
  simpa using pyFilter_foldl p f l []

theorem lookup_setKey (key : String) (v : Json) (fields : List (String × Json)) :
    List.lookup key (setKey key v fields) = some v := by
  induction fields with
  | nil => simp [setKey, List.lookup]
  | cons kv rest ih =>
    obtain ⟨k, w⟩ := kv
    by_cases hk : k = key
    · subst hk
      simp [setKey, List.lookup]
    · have hkb : (key == k) = false := beq_eq_false_iff_ne.mpr (fun h => hk h.symm)
      simp [setKey, if_neg hk, List.lookup, hkb, ih]

/-- Reading back the key just assigned into a JSON object returns the
assigned value. -/
theorem get_set_obj (j : Json) (hj : j.isObj = true) (key : String) (v : Json) :
    (j.set key v).get key = v := by
  cases j <;> simp_all [Json.isObj, Json.set, Json.get, Json.getD, Json.lookup, lookup_setKey]

theorem dropWhile_replicate_append (p : Char → Bool) (c : Char) (h : p c = true)
    (n : Nat) (l : List Char) :
    List.dropWhile p (List.replicate n c ++ l) = List.dropWhile p l := by
  induction n with
  | zero => simp
  | succ m ih => simp [List.replicate_succ, List.dropWhile_cons, h, ih]

/-- `rstrip('/')` is invariant under appending trailing slashes. -/
theorem rstripSlash_append_slashes (u : String) (n : Nat) :
    rstripSlash (u ++ String.mk (List.replicate n '/')) = rstripSlash u := by
  unfold rstripSlash
  have hdata : (u ++ String.mk (List.replicate n '/')).data =
      u.data ++ List.replicate n '/' := rfl
  rw [hdata, List.reverse_append, List.reverse_replicate,
    dropWhile_replicate_append _ _ (by decide)]

theorem missing_foldl (fetch : Fetch) (l : List Json) (acc : List Json) :
    l.foldl (fun acc course =>
      match fetch ("courses/" ++ (course.get "id").pyStr ++ "/assignments")
          missingAssignmentsParams with
      | .error _ => acc
      | .ok assignments =>
        assignments.asArr.foldl
          (fun acc2 a => acc2 ++ [missingProj course (course.get "id") a]) acc) acc
    = acc ++ l.flatMap (missingCourseItems fetch) := by
  induction l generalizing acc with
  | nil => simp
  | cons c cs ih =>
    simp only [List.foldl_cons, List.flatMap_cons]
    rw [ih]
    cases hf : fetch ("courses/" ++ (c.get "id").pyStr ++ "/assignments")
        missingAssignmentsParams with
    | error e => simp [missingCourseItems, hf]
    | ok a => simp [missingCourseItems, hf, pyAppend_foldl, List.append_assoc]

/-- The missing-assignments handler, given the list of active courses,
succeeds and returns exactly the concatenated per-course contributions. -/
theorem get_missing_eq (fetch : Fetch) (cs : List Json)
    (h : fetch "courses" [("enrollment_state", PVal.s "active")] = .ok (Json.arr cs)) :
    get_missing_assignments fetch = .ok (Json.arr (cs.flatMap (missingCourseItems fetch))) := by
  unfold get_missing_assignments
  rw [h]
  show Except.ok (Json.arr (cs.foldl _ [])) = _
  rw [missing_foldl, List.nil_append]

theorem discussions_foldl (fetch : Fetch) (l : List Json) (acc : List Json) :
    l.foldl (fun acc course =>
      match fetch ("courses/" ++ (course.get "id").pyStr ++ "/discussion_topics") [] with
      | .error _ => acc
      | .ok ds => (ds.asArr.take 3).foldl
          (fun acc2 d => acc2 ++ [d.set "course_name" (course.get "name")]) acc) acc
    = acc ++ l.flatMap (discussionsCourseItems fetch) := by
  induction l generalizing acc with
  | nil => simp
  | cons c cs ih =>
    simp only [List.foldl_cons, List.flatMap_cons]
    rw [ih]
    cases hf : fetch ("courses/" ++ (c.get "id").pyStr ++ "/discussion_topics") [] with
    | error e => simp [discussionsCourseItems, hf]
    | ok a => simp [discussionsCourseItems, hf, pyAppend_foldl, List.append_assoc]

/-- The discussions handler with no course_id, given the list of active
courses, succeeds and returns the projected contributions of the first
five courses only. -/
theorem get_discussions_eq (fetch : Fetch) (cs : List Json)
    (h : fetch "courses" [("enrollment_state", PVal.s "active")] = .ok (Json.arr cs)) :
    get_discussions fetch none =
      .ok (Json.arr (((cs.take 5).flatMap (discussionsCourseItems fetch)).map discussionProj)) := by
  unfold get_discussions discussionsFanout
  rw [show pyTruthy none = false from rfl]
  simp only [Bool.false_eq_true, if_false]
  rw [h]
  show Except.ok (Json.arr (pyListLoop discussionProj ((cs.take 5).foldl _ []))) = _
  rw [discussions_foldl, List.nil_append, pyListLoop_eq_map]

theorem quizzes_foldl (fetch : Fetch) (l : List Json) (acc : List Json) :
    l.foldl (fun acc course =>
      match fetch ("courses/" ++ (course.get "id").pyStr ++ "/quizzes") [] with
      | .error _ => acc
      | .ok qs => qs.asArr.foldl
          (fun acc2 q => acc2 ++
            [(q.set "course_name" (course.get "name")).set "course_id" (course.get "id")]) acc) acc
    = acc ++ l.flatMap (quizzesCourseItems fetch) := by
  induction l generalizing acc with
  | nil => simp
  | cons c cs ih =>
    simp only [List.foldl_cons, List.flatMap_cons]
    rw [ih]
    cases hf : fetch ("courses/" ++ (c.get "id").pyStr ++ "/quizzes") [] with
    | error e => simp [quizzesCourseItems, hf]
    | ok a => simp [quizzesCourseItems, hf, pyAppend_foldl, List.append_assoc]

/-- The quizzes handler with no course_id, given the list of active
courses, succeeds and returns the projected contributions of every
course whose sub-fetch succeeded. -/
theorem get_quizzes_eq (fetch : Fetch) (cs : List Json)
    (h : fetch "courses" [("enrollment_state", PVal.s "active")] = .ok (Json.arr cs)) :
    get_quizzes fetch none =
      .ok (Json.arr ((cs.flatMap (quizzesCourseItems fetch)).map quizProj)) := by
  unfold get_quizzes quizzesFanout
  rw [show pyTruthy none = false from rfl]
  simp only [Bool.false_eq_true, if_false]
  rw [h]
  show Except.ok (Json.arr (pyListLoop quizProj (cs.foldl _ []))) = _
  rw [quizzes_foldl, List.nil_append, pyListLoop_eq_map]

/-- The grades handler on a falsy course_id argument (absent, or zero)
queries users/self/enrollments. -/
theorem get_grades_falsy (fetch : Fetch) (cid : Option Int) (hcid : pyTruthy cid = false)
    (es : List Json) (h : fetch "users/self/enrollments" gradesParams = .ok (Json.arr es)) :
    get_grades fetch cid =
      .ok (Json.arr ((es.filter (fun e => (e.get "type").isStr "StudentEnrollment")).map gradeProj)) := by
  unfold get_grades
  rw [hcid]
  simp only [Bool.false_eq_true, if_false]
  rw [h]
  show Except.ok (Json.arr (pyFilterLoop _ gradeProj es)) = _
  rw [pyFilterLoop_eq]

/-- The grades handler on a truthy (present and nonzero) course_id
argument queries the per-course enrollments endpoint. -/
theorem get_grades_truthy (fetch : Fetch) (cid : Int) (hcid : cid ≠ 0)
    (es : List Json)
    (h : fetch ("courses/" ++ toString cid ++ "/enrollments") gradesParams = .ok (Json.arr es)) :
    get_grades fetch (some cid) =
      .ok (Json.arr ((es.filter (fun e => (e.get "type").isStr "StudentEnrollment")).map gradeProj)) := by
  unfold get_grades
  rw [show pyTruthy (some cid) = true by simp [pyTruthy, hcid]]
  simp only [if_true]
  rw [show (some cid).getD 0 = cid from rfl, h]
  show Except.ok (Json.arr (pyFilterLoop _ gradeProj es)) = _
  rw [pyFilterLoop_eq]

/-- The upcoming-assignments handler, given the planner items, keeps
exactly the items whose plannable_type is "assignment", in order. -/
theorem get_upcoming_eq (fetch : Fetch) (now : Nat) (d : Int) (items : List Json)
    (h : fetch "planner/items" (upcomingAssignmentsParams now d) = .ok (Json.arr items)) :
    get_upcoming_assignments fetch now d =
      .ok (Json.arr ((items.filter
        (fun item => (item.get "plannable_type").isStr "assignment")).map upcomingProj)) := by
  unfold get_upcoming_assignments
  rw [h]
  show Except.ok (Json.arr (pyFilterLoop _ upcomingProj items)) = _
  rw [pyFilterLoop_eq]

theorem get_notifications_error (fetch : Fetch) (e : UpstreamError)
    (h : fetch "users/self/activity_stream" notificationsParams = .error e) :
    get_notifications fetch = .ok (Json.arr []) := by
  unfold get_notifications
  rw [h]

theorem get_notifications_ok (fetch : Fetch) (items : List Json)
    (h : fetch "users/self/activity_stream" notificationsParams = .ok (Json.arr items)) :
    get_notifications fetch = .ok (Json.arr (items.map notificationProj)) := by
  unfold get_notifications
  rw [h]
  show Except.ok (Json.arr (pyListLoop notificationProj items)) = _
  rw [pyListLoop_eq_map]

/-! ## Claim theorems -/

/-- C1: for every endpoint and parameter mapping, the Canvas client get
operation fails with an error carrying the status code and response body
when the HTTP response status is outside 200-299, fails when the request
times out or the connection fails, fails when a 2xx response body is not
valid JSON, and otherwise returns the parsed JSON body exactly as
returned upstream. -/
theorem canvasGet_error_classification (net : Net) (parse : String → Option Json)
    (base_url api_token endpoint : String) (params : Params) :
    (net ((CanvasAPI.init base_url api_token).url endpoint)
        (CanvasAPI.init base_url api_token).headers params = .netFail →
      (CanvasAPI.init base_url api_token).get net parse endpoint params =
        .error .unavailable) ∧
    (∀ status body,
      net ((CanvasAPI.init base_url api_token).url endpoint)
        (CanvasAPI.init base_url api_token).headers params = .resp status body →
      ¬(200 ≤ status ∧ status < 300) →
      (CanvasAPI.init base_url api_token).get net parse endpoint params =
        .error (.httpError status body)) ∧
    (∀ status body,
      net ((CanvasAPI.init base_url api_token).url endpoint)
        (CanvasAPI.init base_url api_token).headers params = .resp status body →
      (200 ≤ status ∧ status < 300) → parse body = none →
      (CanvasAPI.init base_url api_token).get net parse endpoint params =
        .error .decodeError) ∧
    (∀ status body j,
      net ((CanvasAPI.init base_url api_token).url endpoint)
        (CanvasAPI.init base_url api_token).headers params = .resp status body →
      (200 ≤ status ∧ status < 300) → parse body = some j →
      (CanvasAPI.init base_url api_token).get net parse endpoint params = .ok j) := by
  refine ⟨?_, ?_, ?_, ?_⟩
  · intro h
    unfold CanvasAPI.get
    rw [h]
  · intro status body h hnot
    unfold CanvasAPI.get
    rw [h]
    dsimp only
    rw [if_neg hnot]
  · intro status body h hin hp
    unfold CanvasAPI.get
    rw [h]
    dsimp only
    rw [if_pos hin, hp]
  · intro status body j h hin hp
    unfold CanvasAPI.get
    rw [h]
    dsimp only
    rw [if_pos hin, hp]

/-- Witness for C1: the four outcomes at concrete fixtures. -/
theorem canvasGet_error_classification_witness :
    (CanvasAPI.init "https://c.edu" "tok").get c1NetFail c1Parse "courses" [] =
      .error .unavailable ∧
    (CanvasAPI.init "https://c.edu" "tok").get c1Net500 c1Parse "courses" [] =
      .error (.httpError 500 "server error") ∧
    (CanvasAPI.init "https://c.edu" "tok").get c1NetBad c1Parse "courses" [] =
      .error .decodeError ∧
    (CanvasAPI.init "https://c.edu" "tok").get c1NetOk c1Parse "courses" [] =
      .ok (Json.arr []) := by
  refine ⟨?_, ?_, ?_, ?_⟩
  · exact (canvasGet_error_classification c1NetFail c1Parse "https://c.edu" "tok"
      "courses" []).1 rfl
  · exact (canvasGet_error_classification c1Net500 c1Parse "https://c.edu" "tok"
      "courses" []).2.1 500 "server error" rfl (by omega)
  · exact (canvasGet_error_classification c1NetBad c1Parse "https://c.edu" "tok"
      "courses" []).2.2.1 200 "not json" rfl (by omega) rfl
  · exact (canvasGet_error_classification c1NetOk c1Parse "https://c.edu" "tok"
      "courses" []).2.2.2 200 "[]" (Json.arr []) rfl (by omega) rfl

/-- C2: given the list of active courses, get_missing_assignments
succeeds (no error propagated) and returns exactly the concatenated
contributions of the courses, in course order; a course whose
assignments sub-fetch fails (with any error) contributes nothing. -/
theorem missingAssignments_skips_failed_courses (fetch : Fetch) (cs : List Json)
    (h : fetch "courses" [("enrollment_state", PVal.s "active")] = .ok (Json.arr cs))
    (hobj : ∀ c ∈ cs, c.isObj = true) :
    get_missing_assignments fetch = .ok (Json.arr (cs.flatMap (missingCourseItems fetch))) ∧
    ∀ c ∈ cs, ∀ e : UpstreamError,
      fetch ("courses/" ++ (c.get "id").pyStr ++ "/assignments")
        missingAssignmentsParams = .error e →
      missingCourseItems fetch c = [] := by
  refine ⟨get_missing_eq fetch cs h, ?_⟩
  intro c _ e he
  unfold missingCourseItems
  rw [he]

/-- Witness for C2: three courses, the second one failing; the result
holds exactly the entries of courses one and three. -/
theorem missingAssignments_skips_failed_courses_witness :
    get_missing_assignments c2Fetch = .ok (Json.arr
      [missingProj (fixCourse 1 "Math") (Json.num 1) c2A1,
       missingProj (fixCourse 3 "Chem") (Json.num 3) c2A3]) ∧
    missingCourseItems c2Fetch (fixCourse 2 "Bio") = [] := by
  have h := missingAssignments_skips_failed_courses c2Fetch
    [fixCourse 1 "Math", fixCourse 2 "Bio", fixCourse 3 "Chem"] rfl
    (by intro c hc; fin_cases hc <;> rfl)
  exact ⟨h.1.trans (by rfl),
    h.2 (fixCourse 2 "Bio") (by simp) (.httpError 500 "err") rfl⟩

/-- C3: if the activity-stream fetch fails, for any error kind, the
notifications tool returns the empty list rather than an error; if it
succeeds, the tool returns one projected record per item. -/
theorem notifications_swallow_or_project (fetch : Fetch) :
    (∀ e : UpstreamError,
      fetch "users/self/activity_stream" notificationsParams = .error e →
      get_notifications fetch = .ok (Json.arr [])) ∧
    (∀ items : List Json,
      fetch "users/self/activity_stream" notificationsParams = .ok (Json.arr items) →
      get_notifications fetch = .ok (Json.arr (items.map notificationProj)) ∧
      (items.map notificationProj).length = items.length) :=
  ⟨fun e he => get_notifications_error fetch e he,
   fun items hi => ⟨get_notifications_ok fetch items hi, by simp⟩⟩

/-- Witness for C3: a failing fetch yields the empty list; a one-item
stream yields one projected record. -/
theorem notifications_swallow_or_project_witness :
    get_notifications c3FetchErr = .ok (Json.arr []) ∧
    get_notifications c3FetchOk = .ok (Json.arr [notificationProj c3Item]) :=
  ⟨(notifications_swallow_or_project c3FetchErr).1 .unavailable rfl,
   ((notifications_swallow_or_project c3FetchOk).2 [c3Item] rfl).1⟩

/-- C4: with no course_id, only the first five active courses are
queried (the result is the projection of their contributions only),
only the first three discussions of each course are kept, each tagged
with the name of its course in the course_name output field, and a
failing sub-fetch contributes nothing while the loop continues. -/
theorem discussions_fanout (fetch : Fetch) (cs : List Json)
    (h : fetch "courses" [("enrollment_state", PVal.s "active")] = .ok (Json.arr cs))
    (hobj : ∀ c ∈ cs, c.isObj = true) :
    get_discussions fetch none =
      .ok (Json.arr (((cs.take 5).flatMap (discussionsCourseItems fetch)).map discussionProj)) ∧
    (∀ c ∈ cs, ∀ e : UpstreamError,
      fetch ("courses/" ++ (c.get "id").pyStr ++ "/discussion_topics") [] = .error e →
      discussionsCourseItems fetch c = []) ∧
    (∀ c ∈ cs, ∀ ds : Json,
      fetch ("courses/" ++ (c.get "id").pyStr ++ "/discussion_topics") [] = .ok ds →
      discussionsCourseItems fetch c =
        (ds.asArr.take 3).map (fun d => d.set "course_name" (c.get "name"))) ∧
    (∀ c d : Json, d.isObj = true →
      (discussionProj (d.set "course_name" (c.get "name"))).get "course_name" =
        c.get "name") := by
  refine ⟨get_discussions_eq fetch cs h, ?_, ?_, ?_⟩
  · intro c _ e he
    unfold discussionsCourseItems
    rw [he]
  · intro c _ ds hds
    unfold discussionsCourseItems
    rw [hds]
  · intro c d hd
    rw [show (discussionProj (d.set "course_name" (c.get "name"))).get "course_name" =
        (d.set "course_name" (c.get "name")).get "course_name" from rfl,
      get_set_obj d hd]

/-- Witness for C4: six active courses, four discussions in the first;
exactly the first three appear, tagged, and the sixth course (which has
a discussion) contributes nothing. -/
theorem discussions_fanout_witness :
    get_discussions c4Fetch none = .ok (Json.arr
      [discussionProj ((c4Disc 1).set "course_name" (Json.str "Alg")),
       discussionProj ((c4Disc 2).set "course_name" (Json.str "Alg")),
       discussionProj ((c4Disc 3).set "course_name" (Json.str "Alg"))]) ∧
    (discussionProj ((c4Disc 1).set "course_name" (Json.str "Alg"))).get "course_name" =
      Json.str "Alg" := by
  have h := discussions_fanout c4Fetch
    [fixCourse 1 "Alg", fixCourse 2 "Bio", fixCourse 3 "Chem",
     fixCourse 4 "Dyn", fixCourse 5 "Eco", fixCourse 6 "Fre"] rfl
    (by intro c hc; fin_cases hc <;> rfl)
  exact ⟨h.1.trans (by rfl),
    h.2.2.2 (fixCourse 1 "Alg") (c4Disc 1) rfl⟩

/-- C5: the upcoming-assignments tool keeps exactly the planner items
whose plannable_type equals "assignment", in order; an included item
whose plannable object lacks due_at yields a record with due_at null
rather than an error; all other items contribute nothing. -/
theorem upcomingAssignments_filter (fetch : Fetch) (now : Nat) (d : Int) (items : List Json)
    (h : fetch "planner/items" (upcomingAssignmentsParams now d) = .ok (Json.arr items))
    (hobj : ∀ i ∈ items, i.isObj = true) :
    get_upcoming_assignments fetch now d =
      .ok (Json.arr ((items.filter
        (fun item => (item.get "plannable_type").isStr "assignment")).map upcomingProj)) ∧
    (∀ i : Json, (i.getD "plannable" (Json.obj [])).lookup "due_at" = none →
      (upcomingProj i).get "due_at" = Json.null) ∧
    (∀ i ∈ items, (i.get "plannable_type").isStr "assignment" = false →
      i ∉ items.filter (fun item => (item.get "plannable_type").isStr "assignment")) := by
  refine ⟨get_upcoming_eq fetch now d items h, ?_, ?_⟩
  · intro i hi
    rw [show (upcomingProj i).get "due_at" =
        ((i.getD "plannable" (Json.obj [])).lookup "due_at").getD Json.null from rfl, hi]
    rfl
  · intro i _ hfalse
    simp [List.mem_filter, hfalse]

/-- Witness for C5: one assignment item with no plannable.due_at and one
quiz item; the quiz is excluded and the assignment record carries a null
due_at. -/
theorem upcomingAssignments_filter_witness :
    get_upcoming_assignments c5Fetch 0 7 = .ok (Json.arr [upcomingProj c5Item1]) ∧
    (upcomingProj c5Item1).get "due_at" = Json.null := by
  have h := upcomingAssignments_filter c5Fetch 0 7 [c5Item1, c5Item2] rfl
    (by intro i hi; fin_cases hi <;> rfl)
  exact ⟨h.1.trans (by rfl), h.2.1 c5Item1 rfl⟩

/-- C6 counterexample: the claim says a present course_id routes the
query to courses/{course_id}/enrollments, but Python truthiness sends
the present argument 0 to users/self/enrollments: on a fixture where
every courses/... endpoint is unavailable and only
users/self/enrollments succeeds, the call with course_id = 0 still
succeeds, with the users/self data. -/
theorem grades_endpoint_zero_counterexample :
    c6CEFetch ("courses/" ++ toString (0 : Int) ++ "/enrollments") gradesParams =
      .error .unavailable ∧
    c6CEFetch "users/self/enrollments" gradesParams = .ok (Json.arr [c6Stu]) ∧
    get_grades c6CEFetch (some 0) = .ok (Json.arr [gradeProj c6Stu]) :=
  ⟨rfl, rfl, rfl⟩

/-- C6 (amended): get_grades queries courses/{course_id}/enrollments
when course_id is present and nonzero (truthy), and
users/self/enrollments when it is absent or zero (falsy); in both cases
the result keeps exactly the enrollments whose type equals
"StudentEnrollment", each flattened so the nested grades fields appear
as top-level output fields. -/
theorem grades_endpoint_truthiness :
    (∀ (fetch : Fetch) (cid : Int) (es : List Json), cid ≠ 0 →
      fetch ("courses/" ++ toString cid ++ "/enrollments") gradesParams = .ok (Json.arr es) →
      get_grades fetch (some cid) = .ok (Json.arr ((es.filter
        (fun e => (e.get "type").isStr "StudentEnrollment")).map gradeProj))) ∧
    (∀ (fetch : Fetch) (cid : Option Int) (es : List Json), pyTruthy cid = false →
      fetch "users/self/enrollments" gradesParams = .ok (Json.arr es) →
      get_grades fetch cid = .ok (Json.arr ((es.filter
        (fun e => (e.get "type").isStr "StudentEnrollment")).map gradeProj))) ∧
    (∀ e : Json,
      (gradeProj e).get "course_id" = e.get "course_id" ∧
      (gradeProj e).get "current_score" = (e.getD "grades" (Json.obj [])).get "current_score" ∧
      (gradeProj e).get "final_score" = (e.getD "grades" (Json.obj [])).get "final_score" ∧
      (gradeProj e).get "current_grade" = (e.getD "grades" (Json.obj [])).get "current_grade" ∧
      (gradeProj e).get "final_grade" = (e.getD "grades" (Json.obj [])).get "final_grade" ∧
      (gradeProj e).get "unposted_current_score" =
        (e.getD "grades" (Json.obj [])).get "unposted_current_score" ∧
      (gradeProj e).get "unposted_current_grade" =
        (e.getD "grades" (Json.obj [])).get "unposted_current_grade") :=
  ⟨fun fetch cid es hcid h => get_grades_truthy fetch cid hcid es h,
   fun fetch cid es hcid h => get_grades_falsy fetch cid hcid es h,
   fun e => ⟨rfl, rfl, rfl, rfl, rfl, rfl, rfl⟩⟩

/-- Witness for C6: a teacher and a student enrollment on
courses/9/enrollments; with course_id = 9 only the flattened student
record is returned, and with course_id absent the users/self endpoint
is used. -/
theorem grades_endpoint_truthiness_witness :
    get_grades c6Fetch (some 9) = .ok (Json.arr [gradeProj c6Stu]) ∧
    get_grades c6Fetch none = .ok (Json.arr [gradeProj c6Stu]) ∧
    (gradeProj c6Stu).get "current_score" = Json.num 95 := by
  have h := grades_endpoint_truthiness
  refine ⟨(h.1 c6Fetch 9 [c6Teach, c6Stu] (by omega) rfl).trans (by rfl),
    (h.2.1 c6Fetch none [c6Stu] rfl rfl).trans (by rfl), ?_⟩
  exact ((h.2.2 c6Stu).2.1).trans (by rfl)

/-- C7: the start_date/end_date query parameters of
upcoming_assignments, calendar_events and course_announcements equal
the current instant shifted by the day offset (plus for the first two,
minus for announcements), are well-formed ISO-8601 timestamps, and the
default offsets are 7, 14 and 7 days respectively.  The range
hypotheses confine the instants to the range representable by the
datetime library (years 1 to 9999). -/
theorem dateWindow_params (now : Nat) (da dc db : Int)
    (hmax : now < 3652059 * usPerDay)
    (ha0 : 0 ≤ (now : Int) + da * (usPerDay : Int))
    (ha1 : (now : Int) + da * (usPerDay : Int) < 3652059 * (usPerDay : Int))
    (hc0 : 0 ≤ (now : Int) + dc * (usPerDay : Int))
    (hc1 : (now : Int) + dc * (usPerDay : Int) < 3652059 * (usPerDay : Int))
    (hb0 : 0 ≤ (now : Int) - db * (usPerDay : Int)) :
    List.lookup "start_date" (upcomingAssignmentsParams now da) =
      some (.s (isoformat now)) ∧
    List.lookup "end_date" (upcomingAssignmentsParams now da) =
      some (.s (isoformat (addDays now da))) ∧
    List.lookup "start_date" (calendarEventsParams now dc) =
      some (.s (isoformat now)) ∧
    List.lookup "end_date" (calendarEventsParams now dc) =
      some (.s (isoformat (addDays now dc))) ∧
    List.lookup "start_date" (courseAnnouncementsParams now db) =
      some (.s (isoformat (subDays now db))) ∧
    isISO8601 (isoformat now) = true ∧
    isISO8601 (isoformat (addDays now da)) = true ∧
    isISO8601 (isoformat (addDays now dc)) = true ∧
    isISO8601 (isoformat (subDays now db)) = true ∧
    (∀ fetch : Fetch,
      get_upcoming_assignments fetch now = get_upcoming_assignments fetch now 7) ∧
    (∀ fetch : Fetch,
      get_calendar_events fetch now = get_calendar_events fetch now 14) ∧
    (∀ fetch : Fetch,
      get_course_announcements fetch now = get_course_announcements fetch now 7) :=
  ⟨rfl, rfl, rfl, rfl, rfl,
   isoformat_wf now, isoformat_wf _, isoformat_wf _, isoformat_wf _,
   fun _ => rfl, fun _ => rfl, fun _ => rfl⟩

/-- Witness for C7: the window parameters at 1970-01-01T00:00:00 with
the default offsets. -/
theorem dateWindow_params_witness :
    List.lookup "start_date" (upcomingAssignmentsParams 62135596800000000 7) =
      some (.s (isoformat 62135596800000000)) ∧
    List.lookup "end_date" (upcomingAssignmentsParams 62135596800000000 7) =
      some (.s (isoformat (addDays 62135596800000000 7))) ∧
    isISO8601 (isoformat 62135596800000000) = true ∧
    isISO8601 (isoformat (addDays 62135596800000000 7)) = true :=
  have h := dateWindow_params 62135596800000000 7 14 7
    (by norm_num [usPerDay]) (by norm_num [usPerDay]) (by norm_num [usPerDay])
    (by norm_num [usPerDay]) (by norm_num [usPerDay]) (by norm_num [usPerDay])
  ⟨h.1, h.2.1, h.2.2.2.2.2.1, h.2.2.2.2.2.2.1⟩

/-- C8: every swallow site (the missing_assignments per-course loop, the
discussions fan-out loop, the quizzes fan-out loop, and the
notifications whole-call handler) catches every error kind: a failing
sub-fetch, in particular a JSON-decode failure, is skipped or emptied
rather than propagated, while the enclosing call succeeds with the
remaining contributions. -/
theorem swallow_sites_catch_all_error_kinds :
    (∀ (fetch : Fetch) (course : Json) (e : UpstreamError),
      fetch ("courses/" ++ (course.get "id").pyStr ++ "/assignments")
        missingAssignmentsParams = .error e →
      missingCourseItems fetch course = []) ∧
    (∀ (fetch : Fetch) (course : Json) (e : UpstreamError),
      fetch ("courses/" ++ (course.get "id").pyStr ++ "/discussion_topics") [] = .error e →
      discussionsCourseItems fetch course = []) ∧
    (∀ (fetch : Fetch) (course : Json) (e : UpstreamError),
      fetch ("courses/" ++ (course.get "id").pyStr ++ "/quizzes") [] = .error e →
      quizzesCourseItems fetch course = []) ∧
    (∀ (fetch : Fetch) (e : UpstreamError),
      fetch "users/self/activity_stream" notificationsParams = .error e →
      get_notifications fetch = .ok (Json.arr [])) ∧
    (∀ (fetch : Fetch) (cs : List Json),
      fetch "courses" [("enrollment_state", PVal.s "active")] = .ok (Json.arr cs) →
      get_missing_assignments fetch =
        .ok (Json.arr (cs.flatMap (missingCourseItems fetch))) ∧
      get_discussions fetch none =
        .ok (Json.arr (((cs.take 5).flatMap (discussionsCourseItems fetch)).map discussionProj)) ∧
      get_quizzes fetch none =
        .ok (Json.arr ((cs.flatMap (quizzesCourseItems fetch)).map quizProj))) := by
  refine ⟨?_, ?_, ?_, ?_, ?_⟩
  · intro fetch course e he
    unfold missingCourseItems
    rw [he]
  · intro fetch course e he
    unfold discussionsCourseItems
    rw [he]
  · intro fetch course e he
    unfold quizzesCourseItems
    rw [he]
  · intro fetch e he
    exact get_notifications_error fetch e he
  · intro fetch cs h
    exact ⟨get_missing_eq fetch cs h, get_discussions_eq fetch cs h,
      get_quizzes_eq fetch cs h⟩

/-- Witness for C8: a fixture where every sub-fetch of course 1 and the
activity stream fail with a JSON-decode error; all four sites swallow
it, and the fan-out tools still return the contributions of course 2. -/
theorem swallow_sites_catch_all_error_kinds_witness :
    missingCourseItems c8Fetch (fixCourse 1 "Alg") = [] ∧
    discussionsCourseItems c8Fetch (fixCourse 1 "Alg") = [] ∧
    quizzesCourseItems c8Fetch (fixCourse 1 "Alg") = [] ∧
    get_notifications c8Fetch = .ok (Json.arr []) ∧
    get_missing_assignments c8Fetch =
      .ok (Json.arr [missingProj (fixCourse 2 "Bio") (Json.num 2) c8A]) ∧
    get_discussions c8Fetch none = .ok (Json.arr
      [discussionProj ((c8D).set "course_name" (Json.str "Bio"))]) ∧
    get_quizzes c8Fetch none = .ok (Json.arr
      [quizProj (((c8Q).set "course_name" (Json.str "Bio")).set "course_id" (Json.num 2))]) := by
  have h := swallow_sites_catch_all_error_kinds
  have h5 := h.2.2.2.2 c8Fetch [fixCourse 1 "Alg", fixCourse 2 "Bio"] rfl
  exact ⟨h.1 c8Fetch (fixCourse 1 "Alg") .decodeError rfl,
    h.2.1 c8Fetch (fixCourse 1 "Alg") .decodeError rfl,
    h.2.2.1 c8Fetch (fixCourse 1 "Alg") .decodeError rfl,
    h.2.2.2.1 c8Fetch .decodeError rfl,
    h5.1.trans (by rfl), h5.2.1.trans (by rfl), h5.2.2.trans (by rfl)⟩

/-- C9: every tool is a deterministic, stateless function of its
arguments, the credentials, the upstream responses and the clock: two
invocations that agree on all of these produce identical output.
Statelessness is expressed by the fact that runTool has no other input
at all: no state survives an invocation. -/
theorem tools_deterministic (t1 t2 : ToolCall) (u1 u2 tok1 tok2 : String)
    (net1 net2 : Net) (parse1 parse2 : String → Option Json) (now1 now2 : Nat)
    (ht : t1 = t2) (hu : u1 = u2) (htok : tok1 = tok2)
    (hnet : ∀ url hs ps, net1 url hs ps = net2 url hs ps)
    (hparse : ∀ s, parse1 s = parse2 s) (hnow : now1 = now2) :
    runTool t1 u1 tok1 net1 parse1 now1 = runTool t2 u2 tok2 net2 parse2 now2 := by
  subst ht hu htok hnow
  have h1 : net1 = net2 := funext fun a => funext fun b => funext fun c => hnet a b c
  have h2 : parse1 = parse2 := funext hparse
  rw [h1, h2]

/-- Witness for C9: two identical invocations of the todos tool agree. -/
theorem tools_deterministic_witness :
    runTool .todos "https://c.edu" "tok" c9Net c9Parse 0 =
      runTool .todos "https://c.edu" "tok" c9Net c9Parse 0 :=
  tools_deterministic .todos .todos "https://c.edu" "https://c.edu" "tok" "tok"
    c9Net c9Net c9Parse c9Parse 0 0 rfl rfl rfl
    (fun _ _ _ => rfl) (fun _ => rfl) rfl

/-- C10: the client built from canvas_url and the client built from
canvas_url with any number of trailing slashes appended issue their GET
to the identical URL, namely stripped_base/api/v1/endpoint: request-URL
construction is invariant under trailing slashes. -/
theorem url_trailing_slash_invariant (u api_token endpoint : String) (n : Nat)
    (net : Net) (parse : String → Option Json) (params : Params) :
    (CanvasAPI.init (u ++ String.mk (List.replicate n '/')) api_token).url endpoint =
      (CanvasAPI.init u api_token).url endpoint ∧
    (CanvasAPI.init u api_token).url endpoint = rstripSlash u ++ "/api/v1/" ++ endpoint ∧
    (CanvasAPI.init (u ++ String.mk (List.replicate n '/')) api_token).get net parse
        endpoint params =
      (CanvasAPI.init u api_token).get net parse endpoint params := by
  have hu : CanvasAPI.init (u ++ String.mk (List.replicate n '/')) api_token =
      CanvasAPI.init u api_token := by
    unfold CanvasAPI.init
    rw [rstripSlash_append_slashes]
  exact ⟨by rw [hu], rfl, by rw [hu]⟩

end CanvasMCP
